import Mathlib

/-!
# Shared realtime client of the arbitrage dashboard: a shallow embedding

This file embeds the client-side logic of the arbitrage dashboard
(src/src/hooks/useWebSocket.ts, src/src/hooks/useTradingAPI.ts and the
unnamed provider variants) as pure Lean definitions and proves the
specified properties about them.

The repository contains two provider implementations in the same hook file:

* the shared client (WebSocketProvider, first half of useWebSocket.ts and
  src/unnamed/part_004): four category cells (market data, active
  positions, closed positions, balances), a fixed 3000 ms reconnect delay
  guarded by an isReconnecting flag;
* the bounded variant (second half of useWebSocket.ts): a single market
  data cell, reconnect with doubling delay capped at 30000 ms and at most
  5 attempts, a 30 s application ping and a pong branch.

Numeric payload fields (prices, volumes, PnL) are inert in every property
below: the client never computes with them, it only stores and forwards
them.  They are therefore represented by Int, a faithful carrier for this
purpose.  JavaScript undefined and null are both represented by Option
none; the JS truthiness idiom x || y on object fields is Option.getD, and
on string fields it is jsStringOr below (the empty string is falsy).
-/

/-- Quote of the hyperliquid venue inside an ArbitragePair
(useWebSocket.ts, interface ArbitragePair). -/
structure HlQuote where
  bid : Int
  ask : Int
  volume_24h : Int
deriving DecidableEq

/-- Quote of the bybit venue inside an ArbitragePair
(useWebSocket.ts, interface ArbitragePair). -/
structure ByQuote where
  bid : Int
  ask : Int
  volume_24h : Int
  available : Bool
deriving DecidableEq

/-- One pair record of the market snapshot (interface ArbitragePair). -/
structure ArbitragePair where
  pair : String
  funding_rate : Int
  annual_funding_rate : Int
  hyperliquid : HlQuote
  bybit : ByQuote
deriving DecidableEq

/-- Metadata of the market snapshot (interface ArbitrageData.metadata). -/
structure ArbitrageMetadata where
  last_update : String
  hyperliquid_pairs_count : Int
  bybit_pairs_count : Int
  combined_pairs_count : Int
deriving DecidableEq

/-- Bybit side of a position record (interface Position.bybit). -/
structure ByPositionSide where
  entry_price : Int
  exit_price : Int
  amount : Int
  unrealized_pnl : Int
  realized_pnl : Int
  total_fees : Int
deriving DecidableEq

/-- Hyperliquid side of a position record (interface Position.hyperliquid). -/
structure HlPositionSide where
  entry_price : Int
  exit_price : Int
  size : Int
  unrealized_pnl : Int
  realized_pnl : Int
  liquidation_price : Int
  margin_used : Int
  leverage : Int
  total_fees : Int
  liquidation_risk_pct : Int
deriving DecidableEq

/-- Aggregate PnL of a position record (interface Position.total). -/
structure PositionTotals where
  unrealized_pnl : Int
  realized_pnl : Int
  funding_earned : Int
  net_pnl : Int
deriving DecidableEq

/-- A position record (interface Position of useWebSocket.ts). -/
structure Position where
  symbol : String
  usdt_amount : Int
  status : String
  entry_time : Option String
  exit_time : Option String
  entry_funding_rate : Int
  bybit : ByPositionSide
  hyperliquid : HlPositionSide
  total : PositionTotals
deriving DecidableEq

/-- One side of the account balances payload (interface AccountBalances). -/
structure BalanceSide where
  total : Int
  free : Int
  used : Int
deriving DecidableEq

/-- The account balances payload (interface AccountBalances). -/
structure AccountBalances where
  bybit : BalanceSide
  hyperliquid : BalanceSide
deriving DecidableEq

/-- The dynamic data payload of an inbound message.  The source types it
as any; this record carries exactly the fields the message handler reads:
pairs and metadata (arbitrage_data messages store the whole payload),
active_positions, closed_positions and balances.  A field the concrete
JSON object lacks is none. -/
structure WSData where
  pairs : Option (List ArbitragePair)
  metadata : Option ArbitrageMetadata
  active_positions : Option (List Position)
  closed_positions : Option (List Position)
  balances : Option AccountBalances
deriving DecidableEq

/-- A parsed inbound message (interface WebSocketMessage):
type tag, optional data payload, optional message string, timestamp. -/
structure WSMessage where
  type : String
  data : Option WSData
  message : Option String
  timestamp : String
deriving DecidableEq

/-- An inbound transport frame: either its payload parses to a WSMessage
or JSON.parse throws (malformed). -/
inductive Frame where
  | malformed : Frame
  | msg : WSMessage → Frame
deriving DecidableEq

/-- Lifecycle of one WebSocket object. -/
inductive SocketState where
  | connecting : SocketState
  | opened : SocketState
  | closing : SocketState
  | closed : SocketState
deriving DecidableEq

/-- Marks the most recently created socket (the one ws.current points to). -/
def markHead (st : SocketState) : List SocketState → List SocketState
  | [] => []
  | _ :: rest => st :: rest

/-- The effect of calling close() on a socket object. -/
def closeSocket : SocketState → SocketState
  | SocketState.connecting => SocketState.closing
  | SocketState.opened => SocketState.closing
  | st => st

/-- Calling close() on the current socket, when one exists. -/
def closeHead : List SocketState → List SocketState
  | [] => []
  | st :: rest => closeSocket st :: rest

/-- Closes the current socket only when it is OPEN: the readyState guard
of the bounded variant connect. -/
def closeHeadIfOpen : List SocketState → List SocketState
  | SocketState.opened :: rest => SocketState.closing :: rest
  | l => l

/-- State of the shared client (first WebSocketProvider of
useWebSocket.ts and src/unnamed/part_004): the useState cells, the
isClient flag, the isReconnecting ref, whether a reconnect timeout is
pending, and the states of all sockets ever created, most recent first
(ws.current is the head). -/
structure V1State where
  data : Option WSData
  activePositions : List Position
  closedPositions : List Position
  balances : Option AccountBalances
  isConnected : Bool
  isLoading : Bool
  error : Option String
  isClient : Bool
  isReconnecting : Bool
  pendingTimer : Bool
  sockets : List SocketState
deriving DecidableEq

/-- Initial shared-client state: useState initial values, null refs,
no socket created yet. -/
def v1init : V1State :=
  { data := none
    activePositions := []
    closedPositions := []
    balances := none
    isConnected := false
    isLoading := true
    error := none
    isClient := false
    isReconnecting := false
    pendingTimer := false
    sockets := [] }

/-- The error string the shared-client catch handler stores when a frame
cannot be processed. -/
def parseFailureMsg : String := "Failed to parse WebSocket message"

/-- The onmessage handler of the shared client (useWebSocket.ts lines
130-157).  A malformed frame takes the catch path.  In each of the four
category branches the handler first logs a field of message.data; when
data is undefined that access throws a TypeError which lands in the same
catch, so the branch stores nothing and only the error cell changes.
With data present, active_positions and closed_positions store the
corresponding field or the empty array (the JS || [] fallback), and
account_balances stores data.balances or null.  A connection message and
an unknown type change nothing; an error message stores its message
field. -/
def v1onmessage (s : V1State) (f : Frame) : V1State :=
  match f with
  | Frame.malformed => { s with error := some parseFailureMsg }
  | Frame.msg m =>
    if m.type = "arbitrage_data" then
      match m.data with
      | some d => { s with data := some d, isLoading := false }
      | none => { s with error := some parseFailureMsg }
    else if m.type = "active_positions" then
      match m.data with
      | some d => { s with activePositions := d.active_positions.getD [] }
      | none => { s with error := some parseFailureMsg }
    else if m.type = "closed_positions" then
      match m.data with
      | some d => { s with closedPositions := d.closed_positions.getD [] }
      | none => { s with error := some parseFailureMsg }
    else if m.type = "account_balances" then
      match m.data with
      | some d => { s with balances := d.balances }
      | none => { s with error := some parseFailureMsg }
    else if m.type = "connection" then s
    else if m.type = "error" then { s with error := m.message }
    else s

/-- connect() of the shared client (lines 117-121): returns immediately
unless running on the client with the isReconnecting flag clear;
otherwise creates a new socket and installs handlers.  It does not close
or check any existing socket. -/
def v1connect (s : V1State) : V1State :=
  if !s.isClient || s.isReconnecting then s
  else { s with sockets := SocketState.connecting :: s.sockets }

/-- onopen of the shared client (lines 123-128). -/
def v1onopen (s : V1State) : V1State :=
  { s with isConnected := true
           error := none
           isReconnecting := false
           sockets := markHead SocketState.opened s.sockets }

/-- onclose of the shared client (lines 159-170): records the closure,
and schedules one 3000 ms reconnect timeout exactly when the
isReconnecting flag is clear and the close code is not 1000. -/
def v1onclose (s : V1State) (code : Nat) : V1State :=
  let t := { s with isConnected := false
                    sockets := markHead SocketState.closed s.sockets }
  if !t.isReconnecting && code ≠ 1000 then
    { t with isReconnecting := true, pendingTimer := true }
  else t

/-- reconnect() of the shared client (lines 184-195): clears any pending
reconnect timeout, closes the current socket if one exists, clears the
isReconnecting flag and calls connect(). -/
def v1reconnect (s : V1State) : V1State :=
  v1connect { s with pendingTimer := false
                     sockets := closeHead s.sockets
                     isReconnecting := false }

/-- The unmount cleanup of the shared client (lines 202-211): clears any
pending reconnect timeout and, when a socket exists, sets the
isReconnecting flag and closes it with code 1000.  The transport then
delivers an onclose event with code 1000. -/
def v1cleanup (s : V1State) : V1State :=
  let t := { s with pendingTimer := false }
  if t.sockets.isEmpty then t
  else { t with isReconnecting := true, sockets := closeHead t.sockets }

/-- Processing a whole sequence of inbound frames, oldest first. -/
def processAll (s : V1State) (fs : List Frame) : V1State :=
  fs.foldl v1onmessage s

/-- The four category type tags of the shared client. -/
def categoryType (t : String) : Bool :=
  t = "arbitrage_data" || t = "active_positions" ||
    t = "closed_positions" || t = "account_balances"

/-- A frame is well typed when, if it parses to a category message, that
message carries a data payload. -/
def frameWellTyped : Frame → Bool
  | Frame.malformed => true
  | Frame.msg m => !categoryType m.type || m.data.isSome

/-- Every frame of the sequence is well typed. -/
def wellTyped (fs : List Frame) : Bool := fs.all frameWellTyped

/-- The most recent parsed message of the given type tag in a sequence of
frames (the sequence is ordered oldest first). -/
def lastMsg (t : String) : List Frame → Option WSMessage
  | [] => none
  | f :: fs =>
    match lastMsg t fs with
    | some m => some m
    | none =>
      match f with
      | Frame.msg m => if m.type = t then some m else none
      | Frame.malformed => none

/-- Value the arbitrage_data cell holds given the most recent
arbitrage_data message, falling back to a previous value when none
arrived. -/
def storedData (prev : Option WSData) : Option WSMessage → Option WSData
  | none => prev
  | some m => m.data

/-- Value the activePositions cell holds given the most recent
active_positions message. -/
def storedActive (prev : List Position) : Option WSMessage → List Position
  | none => prev
  | some m =>
    match m.data with
    | some d => d.active_positions.getD []
    | none => []

/-- Value the closedPositions cell holds given the most recent
closed_positions message. -/
def storedClosed (prev : List Position) : Option WSMessage → List Position
  | none => prev
  | some m =>
    match m.data with
    | some d => d.closed_positions.getD []
    | none => []

/-- Value the balances cell holds given the most recent account_balances
message. -/
def storedBalances (prev : Option AccountBalances) :
    Option WSMessage → Option AccountBalances
  | none => prev
  | some m =>
    match m.data with
    | some d => d.balances
    | none => none

/-- State of the bounded variant (second WebSocketProvider of
useWebSocket.ts, lines 304-462): a single market data cell, the
reconnect attempt counter and current delay refs, and the delays of all
reconnect timeouts still pending (most recently scheduled first;
reconnectTimeoutRef holds only the handle of the head). -/
structure BState where
  data : Option WSData
  isConnected : Bool
  isLoading : Bool
  error : Option String
  isClient : Bool
  reconnectAttempts : Nat
  reconnectDelay : Nat
  pendingTimers : List Nat
  sockets : List SocketState
deriving DecidableEq

/-- Maximum reconnect attempts of the bounded variant. -/
def maxReconnectAttempts : Nat := 5

/-- Initial bounded-variant state, after the client-side flag effect has
run (isClient true). -/
def binit : BState :=
  { data := none
    isConnected := false
    isLoading := true
    error := none
    isClient := true
    reconnectAttempts := 0
    reconnectDelay := 1000
    pendingTimers := []
    sockets := [] }

/-- connect() of the bounded variant (lines 322-338): only on the
client; closes the current socket when it is OPEN, sets loading, clears
the error and creates a new socket. -/
def connectB (s : BState) : BState :=
  if s.isClient then
    { s with isLoading := true
             error := none
             sockets := SocketState.connecting :: closeHeadIfOpen s.sockets }
  else s

/-- onopen of the bounded variant (lines 340-357): marks the socket
open, clears loading and error, and resets the reconnect attempt counter
and delay to their base values. -/
def onopenB (s : BState) : BState :=
  { s with isConnected := true
           isLoading := false
           error := none
           reconnectAttempts := 0
           reconnectDelay := 1000
           sockets := markHead SocketState.opened s.sockets }

/-- The terminal error of the bounded variant once reconnect attempts
are exhausted. -/
def exhaustedMsg : String :=
  "Failed to connect to WebSocket server after multiple attempts"

/-- onmessage of the bounded variant (lines 359-377): a malformed frame
is only logged; an arbitrage_data message carrying a data payload is
stored wholesale; connection, pong and unknown types change nothing. -/
def onmessageB (s : BState) (f : Frame) : BState :=
  match f with
  | Frame.malformed => s
  | Frame.msg m =>
    if m.type = "arbitrage_data" && m.data.isSome then
      { s with data := m.data, isLoading := false }
    else s

/-- onclose of the bounded variant (lines 379-397): records the closure;
on a non-clean closure with attempts left it schedules exactly one
reconnect timeout carrying the current delay; with attempts exhausted it
instead sets the terminal error. -/
def oncloseB (s : BState) (wasClean : Bool) : BState :=
  let t := { s with isConnected := false
                    sockets := markHead SocketState.closed s.sockets }
  if !wasClean && t.reconnectAttempts < maxReconnectAttempts then
    { t with pendingTimers := t.reconnectDelay :: t.pendingTimers }
  else if maxReconnectAttempts ≤ t.reconnectAttempts then
    { t with error := some exhaustedMsg, isLoading := false }
  else t

/-- A scheduled reconnect timeout of the bounded variant fires (the
callback of lines 388-392): it increments the attempt counter, doubles
the stored delay capping it at 30000 ms, and calls connect(). -/
def timerFireB (s : BState) : BState :=
  match s.pendingTimers with
  | [] => s
  | d :: rest =>
    connectB { s with reconnectAttempts := s.reconnectAttempts + 1
                      reconnectDelay := min (d * 2) 30000
                      pendingTimers := rest }

/-- reconnect() of the bounded variant (lines 413-417): resets the
attempt counter and delay and calls connect().  It does not touch
reconnectTimeoutRef, so any pending reconnect timeout stays pending. -/
def reconnectB (s : BState) : BState :=
  connectB { s with reconnectAttempts := 0, reconnectDelay := 1000 }

/-- Outbound application-level messages the model tracks. -/
inductive ClientMsg where
  | ping : ClientMsg
deriving DecidableEq

/-- Period of the application heartbeat interval of the bounded variant
(line 426). -/
def pingIntervalMs : Nat := 30000

/-- One tick of the heartbeat interval (lines 422-426): a ping frame is
sent exactly when the current socket is OPEN. -/
def pingTick (s : BState) : List ClientMsg :=
  if s.sockets.head? = some SocketState.opened then [ClientMsg.ping] else []

/-- One consecutive-failure cycle of the bounded variant: the current
connection attempt closes uncleanly and the scheduled reconnect timeout
then fires. -/
def failCycle (s : BState) : BState := timerFireB (oncloseB s false)

/-- The bounded-variant state after the initial connect() and five
complete consecutive-failure cycles: five reconnect attempts used. -/
def afterFiveFailures : BState :=
  failCycle (failCycle (failCycle (failCycle (failCycle (connectB binit)))))

/-- Result record of the trading REST hooks
(useTradingAPI.ts, interface TradingResult). -/
structure TradingResult where
  success : Bool
  message : String
  error : Option String
  position : Option Position
deriving DecidableEq

/-- The relevant fields of a parsed REST response body (the source types
it as any): message, error and position.  A field the concrete JSON body
lacks is none. -/
structure RespBody where
  message : Option String
  error : Option String
  position : Option Position
deriving DecidableEq

/-- The empty object produced by the .catch handler of executeTradeAPI
when an error body fails to parse. -/
def emptyRespBody : RespBody :=
  { message := none, error := none, position := none }

/-- An HTTP response: its ok flag (status in the 2xx range), status code
and parsed JSON body, none when the body is not valid JSON. -/
structure HttpResponse where
  ok : Bool
  status : Nat
  body : Option RespBody
deriving DecidableEq

/-- Outcome of one fetch call: a response, or a network-level rejection
carrying the error message of the thrown TypeError. -/
inductive FetchOutcome where
  | response : HttpResponse → FetchOutcome
  | netError : String → FetchOutcome
deriving DecidableEq

/-- Stands for the message of the SyntaxError the JSON parser throws on
an invalid response body. -/
def jsonParseErrorMsg : String := "Unexpected token in JSON"

/-- The JS idiom a || dflt on a string field: the empty string is falsy. -/
def jsStringOr (a : Option String) (dflt : String) : String :=
  match a with
  | some str => if str = "" then dflt else str
  | none => dflt

/-- A fetch outcome the spec counts as a REST failure: a network error
or a non-2xx response. -/
def isFetchFailure : FetchOutcome → Bool
  | FetchOutcome.netError _ => true
  | FetchOutcome.response r => !r.ok

/-- executeTradeAPI (useTradingAPI.ts lines 52-67) as a function of the
fetch outcome: rejections propagate; a non-2xx response throws the
message of its error body when present (the body parse failure is
swallowed into an empty object), else an HTTP status message; a 2xx
response returns its parsed body, throwing when the body is invalid
JSON. -/
def executeTradeAPI (f : FetchOutcome) : Except String RespBody :=
  match f with
  | FetchOutcome.netError msg => Except.error msg
  | FetchOutcome.response r =>
    if !r.ok then
      Except.error (jsStringOr (r.body.getD emptyRespBody).message
        ("HTTP error! status: " ++ toString r.status))
    else
      match r.body with
      | some b => Except.ok b
      | none => Except.error jsonParseErrorMsg

/-- closeTradeAPI (lines 69-95): the body is parsed before the ok check,
so an invalid body throws first; a non-2xx response throws
data.message || data.error || a status message; network rejections are
Error instances and are rethrown unchanged. -/
def closeTradeAPI (f : FetchOutcome) : Except String RespBody :=
  match f with
  | FetchOutcome.netError msg => Except.error msg
  | FetchOutcome.response r =>
    match r.body with
    | none => Except.error jsonParseErrorMsg
    | some b =>
      if !r.ok then
        Except.error (jsStringOr b.message (jsStringOr b.error
          ("Failed to close position (" ++ toString r.status ++ ")")))
      else Except.ok b

/-- openPosition (lines 130-145): wraps executeTradeAPI, turning every
thrown error into a structured failure result.  The function is total:
no exception can reach the caller. -/
def openPosition (f : FetchOutcome) : TradingResult :=
  match executeTradeAPI f with
  | Except.ok res =>
    { success := true
      message := jsStringOr res.message "Position opened successfully"
      error := none
      position := res.position }
  | Except.error m =>
    { success := false
      message := "Failed to open position"
      error := some m
      position := none }

/-- closePosition (lines 147-161): wraps closeTradeAPI, turning every
thrown error into a structured failure result.  The function is total:
no exception can reach the caller. -/
def closePosition (f : FetchOutcome) : TradingResult :=
  match closeTradeAPI f with
  | Except.ok res =>
    { success := true
      message := jsStringOr res.message "Position closed successfully"
      error := none
      position := none }
  | Except.error m =>
    { success := false
      message := "Failed to close position"
      error := some m
      position := none }

/-- A sample position payload used by concrete witnesses. -/
def samplePosition : Position :=
  { symbol := "BTC/USDT"
    usdt_amount := 100
    status := "active"
    entry_time := some "2024-01-01T00:00:00Z"
    exit_time := none
    entry_funding_rate := 1
    bybit := { entry_price := 10, exit_price := 0, amount := 5,
               unrealized_pnl := 1, realized_pnl := 0, total_fees := 1 }
    hyperliquid := { entry_price := 10, exit_price := 0, size := 5,
                     unrealized_pnl := 1, realized_pnl := 0,
                     liquidation_price := 9, margin_used := 20, leverage := 3,
                     total_fees := 1, liquidation_risk_pct := 2 }
    total := { unrealized_pnl := 2, realized_pnl := 0,
               funding_earned := 1, net_pnl := 3 } }

/-- A sample balances payload used by concrete witnesses. -/
def sampleBalances : AccountBalances :=
  { bybit := { total := 100, free := 60, used := 40 }
    hyperliquid := { total := 200, free := 150, used := 50 } }

/-- A sample market pair used by concrete witnesses. -/
def samplePair : ArbitragePair :=
  { pair := "BTC/USDT"
    funding_rate := 1
    annual_funding_rate := 365
    hyperliquid := { bid := 99, ask := 101, volume_24h := 1000 }
    bybit := { bid := 98, ask := 102, volume_24h := 900, available := true } }

/-- Payload of a first sample arbitrage_data message. -/
def dArb1 : WSData :=
  { pairs := some [samplePair], metadata := none, active_positions := none,
    closed_positions := none, balances := none }

/-- Payload of a second sample arbitrage_data message. -/
def dArb2 : WSData :=
  { pairs := some [], metadata := none, active_positions := none,
    closed_positions := none, balances := none }

/-- Payload of a sample active_positions message. -/
def dAct : WSData :=
  { pairs := none, metadata := none,
    active_positions := some [samplePosition],
    closed_positions := none, balances := none }

/-- Payload of a sample account_balances message. -/
def dBal : WSData :=
  { pairs := none, metadata := none, active_positions := none,
    closed_positions := none, balances := some sampleBalances }

/-- A payload carrying none of the category fields. -/
def dEmpty : WSData :=
  { pairs := none, metadata := none, active_positions := none,
    closed_positions := none, balances := none }

/-- A sample inbound sequence interleaving all categories, a malformed
frame and an error message. -/
def sampleFrames : List Frame :=
  [Frame.msg { type := "arbitrage_data", data := some dArb1,
               message := none, timestamp := "t1" },
   Frame.msg { type := "active_positions", data := some dAct,
               message := none, timestamp := "t2" },
   Frame.malformed,
   Frame.msg { type := "account_balances", data := some dBal,
               message := none, timestamp := "t3" },
   Frame.msg { type := "error", data := none,
               message := some "backend overload", timestamp := "t4" },
   Frame.msg { type := "arbitrage_data", data := some dArb2,
               message := none, timestamp := "t5" }]

/-- A shared-client state with a reconnect timer pending after a
non-clean closure: the one socket so far is closed. -/
def v1PendingState : V1State :=
  { v1init with isClient := true
                isReconnecting := true
                pendingTimer := true
                sockets := [SocketState.closed] }

/-- A bounded-variant state with a 3000 ms reconnect timer pending. -/
def bPendingState : BState := { binit with pendingTimers := [3000] }

/-- A shared-client state whose current socket is open, with the
isReconnecting flag clear. -/
def v1OpenState : V1State :=
  { v1init with isClient := true
                isConnected := true
                sockets := [SocketState.opened] }

/-- A concrete failing response carrying a server-supplied message. -/
def failResp : HttpResponse :=
  { ok := false
    status := 500
    body := some { message := some "insufficient margin", error := none,
                   position := none } }

/-- A bounded-variant state whose socket is open. -/
def bOpenState : BState :=
  { binit with isConnected := true, sockets := [SocketState.opened] }

theorem processAll_cons (s : V1State) (f : Frame) (fs : List Frame) :
    processAll s (f :: fs) = processAll (v1onmessage s f) fs := rfl

theorem wellTyped_cons {f : Frame} {fs : List Frame}
    (h : wellTyped (f :: fs) = true) :
    frameWellTyped f = true ∧ wellTyped fs = true := by
  rw [wellTyped, List.all_cons, Bool.and_eq_true] at h
  exact h

theorem v1onmessage_cells (s : V1State) (m : WSMessage)
    (hw : frameWellTyped (Frame.msg m) = true) :
    (v1onmessage s (Frame.msg m)).data =
      storedData s.data
        (if m.type = "arbitrage_data" then some m else none) ∧
    (v1onmessage s (Frame.msg m)).activePositions =
      storedActive s.activePositions
        (if m.type = "active_positions" then some m else none) ∧
    (v1onmessage s (Frame.msg m)).closedPositions =
      storedClosed s.closedPositions
        (if m.type = "closed_positions" then some m else none) ∧
    (v1onmessage s (Frame.msg m)).balances =
      storedBalances s.balances
        (if m.type = "account_balances" then some m else none) := by
  by_cases h1 : m.type = "arbitrage_data" <;>
  by_cases h2 : m.type = "active_positions" <;>
  by_cases h3 : m.type = "closed_positions" <;>
  by_cases h4 : m.type = "account_balances" <;>
  by_cases h5 : m.type = "connection" <;>
  by_cases h6 : m.type = "error" <;>
  cases hd : m.data <;>
  simp_all [v1onmessage, storedData, storedActive, storedClosed,
    storedBalances, frameWellTyped, categoryType]

theorem processAll_cells (fs : List Frame) :
    ∀ s : V1State, wellTyped fs = true →
    (processAll s fs).data =
      storedData s.data (lastMsg "arbitrage_data" fs) ∧
    (processAll s fs).activePositions =
      storedActive s.activePositions (lastMsg "active_positions" fs) ∧
    (processAll s fs).closedPositions =
      storedClosed s.closedPositions (lastMsg "closed_positions" fs) ∧
    (processAll s fs).balances =
      storedBalances s.balances (lastMsg "account_balances" fs) := by
  induction fs with
  | nil => exact fun s _ => ⟨rfl, rfl, rfl, rfl⟩
  | cons f fs ih =>
    intro s h
    obtain ⟨hf, hfs⟩ := wellTyped_cons h
    obtain ⟨ihd, iha, ihc, ihb⟩ := ih (v1onmessage s f) hfs
    rw [processAll_cons]
    refine ⟨?_, ?_, ?_, ?_⟩
    · rw [ihd]
      cases hl : lastMsg "arbitrage_data" fs with
      | some m => simp [lastMsg, hl, storedData]
      | none =>
        simp only [lastMsg, hl]
        cases f with
        | malformed => simp [v1onmessage, storedData]
        | msg m => simpa [storedData] using (v1onmessage_cells s m hf).1
    · rw [iha]
      cases hl : lastMsg "active_positions" fs with
      | some m => simp [lastMsg, hl, storedActive]
      | none =>
        simp only [lastMsg, hl]
        cases f with
        | malformed => simp [v1onmessage, storedActive]
        | msg m => simpa [storedActive] using (v1onmessage_cells s m hf).2.1
    · rw [ihc]
      cases hl : lastMsg "closed_positions" fs with
      | some m => simp [lastMsg, hl, storedClosed]
      | none =>
        simp only [lastMsg, hl]
        cases f with
        | malformed => simp [v1onmessage, storedClosed]
        | msg m => simpa [storedClosed] using (v1onmessage_cells s m hf).2.2.1
    · rw [ihb]
      cases hl : lastMsg "account_balances" fs with
      | some m => simp [lastMsg, hl, storedBalances]
      | none =>
        simp only [lastMsg, hl]
        cases f with
        | malformed => simp [v1onmessage, storedBalances]
        | msg m => simpa [storedBalances] using (v1onmessage_cells s m hf).2.2.2

/-- Claim C1: for every sequence of inbound frames in which each
category-typed message carries a data payload, the value exposed for
each category after processing from the initial state is determined by
the most recent message of that type alone (last-write-wins, wholesale
replacement), independent of interleaved messages of other types: the
market data cell holds that message's payload, the position cells hold
its corresponding list field (empty when the field is absent), and the
balances cell holds its balances field. -/
theorem c1_last_write_wins (fs : List Frame) (h : wellTyped fs = true) :
    (processAll v1init fs).data =
      storedData none (lastMsg "arbitrage_data" fs) ∧
    (processAll v1init fs).activePositions =
      storedActive [] (lastMsg "active_positions" fs) ∧
    (processAll v1init fs).closedPositions =
      storedClosed [] (lastMsg "closed_positions" fs) ∧
    (processAll v1init fs).balances =
      storedBalances none (lastMsg "account_balances" fs) :=
  processAll_cells fs v1init h

/-- Witness for claim C1: the sample sequence is well typed and the main
statement holds on it. -/
theorem c1_last_write_wins_witness :
    wellTyped sampleFrames = true ∧
    ((processAll v1init sampleFrames).data =
        storedData none (lastMsg "arbitrage_data" sampleFrames) ∧
      (processAll v1init sampleFrames).activePositions =
        storedActive [] (lastMsg "active_positions" sampleFrames) ∧
      (processAll v1init sampleFrames).closedPositions =
        storedClosed [] (lastMsg "closed_positions" sampleFrames) ∧
      (processAll v1init sampleFrames).balances =
        storedBalances none (lastMsg "account_balances" sampleFrames)) :=
  ⟨by decide, c1_last_write_wins sampleFrames (by decide)⟩

/-- Claim C2: a malformed inbound frame leaves all four category cells,
the isConnected flag and every socket unchanged in the shared client,
and leaves the whole state unchanged in the bounded variant. -/
theorem c2_malformed_frame_isolated (s : V1State) (bs : BState) :
    (v1onmessage s Frame.malformed).data = s.data ∧
    (v1onmessage s Frame.malformed).activePositions = s.activePositions ∧
    (v1onmessage s Frame.malformed).closedPositions = s.closedPositions ∧
    (v1onmessage s Frame.malformed).balances = s.balances ∧
    (v1onmessage s Frame.malformed).isConnected = s.isConnected ∧
    (v1onmessage s Frame.malformed).sockets = s.sockets ∧
    onmessageB bs Frame.malformed = bs :=
  ⟨rfl, rfl, rfl, rfl, rfl, rfl, rfl⟩

/-- Claim C3: the explicit teardown path (cleanup, then the transport
delivers the code 1000 closure) never leaves a reconnect timer pending,
and an onclose with the normal-closure code 1000 never schedules one. -/
theorem c3_teardown_never_reconnects (s : V1State) :
    (v1onclose (v1cleanup s) 1000).pendingTimer = false ∧
    (v1onclose s 1000).pendingTimer = s.pendingTimer := by
  constructor
  · simp [v1onclose, v1cleanup]
    split <;> simp
  · simp [v1onclose]

/-- Claim C9: the position cells start empty, and a category message
whose payload lacks the corresponding list field stores the empty list,
never an undefined value (the state type makes every stored value a
list). -/
theorem c9_positions_always_arrays (s : V1State) (d : WSData)
    (mm : Option String) (ts : String)
    (ha : d.active_positions = none) (hc : d.closed_positions = none) :
    v1init.activePositions = [] ∧
    v1init.closedPositions = [] ∧
    (v1onmessage s (Frame.msg ⟨"active_positions", some d, mm, ts⟩)).activePositions = [] ∧
    (v1onmessage s (Frame.msg ⟨"closed_positions", some d, mm, ts⟩)).closedPositions = [] := by
  refine ⟨rfl, rfl, ?_, ?_⟩ <;> simp [v1onmessage, ha, hc]

/-- Witness for claim C9 at a concrete payload lacking both position
fields. -/
theorem c9_positions_always_arrays_witness :
    v1init.activePositions = [] ∧
    v1init.closedPositions = [] ∧
    (v1onmessage v1init (Frame.msg ⟨"active_positions", some dEmpty, none, "t"⟩)).activePositions = [] ∧
    (v1onmessage v1init (Frame.msg ⟨"closed_positions", some dEmpty, none, "t"⟩)).closedPositions = [] :=
  c9_positions_always_arrays v1init dEmpty none "t" rfl rfl

/-- Claim C10: an inbound message of type error replaces only the error
cell with the message field of that message; every other component of
the state, including the category cells, isConnected and the sockets, is
unchanged. -/
theorem c10_error_message_sets_only_error (s : V1State) (m : WSMessage)
    (h : m.type = "error") :
    v1onmessage s (Frame.msg m) = { s with error := m.message } := by
  simp [v1onmessage, h]

theorem connectB_preserves (s : BState) :
    (connectB s).pendingTimers = s.pendingTimers ∧
    (connectB s).reconnectAttempts = s.reconnectAttempts ∧
    (connectB s).reconnectDelay = s.reconnectDelay := by
  unfold connectB
  split <;> exact ⟨rfl, rfl, rfl⟩

theorem count_closeHead_le (l : List SocketState) :
    List.count SocketState.opened (closeHead l) ≤
      List.count SocketState.opened l := by
  cases l with
  | nil => exact Nat.le_refl _
  | cons st rest =>
    cases st <;> simp [closeHead, closeSocket, List.count_cons]

/-- Claim C4, amended: a non-clean closure of the bounded variant
schedules exactly one reconnect attempt while fewer than the maximum of
5 attempts have been used, and schedules none once 5 attempts are
exhausted, setting a terminal error instead; a fired reconnect timeout
doubles the delay capping it at 30000 ms, so across consecutive
non-clean closures the scheduled delays are non-decreasing; a successful
onopen resets the delay to the base 1000 ms and the attempt counter to
zero. -/
theorem c4_reconnect_policy :
    (∀ s : BState, s.reconnectAttempts < maxReconnectAttempts →
      oncloseB s false =
        { s with isConnected := false
                 sockets := markHead SocketState.closed s.sockets
                 pendingTimers := s.reconnectDelay :: s.pendingTimers }) ∧
    (∀ s : BState, maxReconnectAttempts ≤ s.reconnectAttempts →
      oncloseB s false =
        { s with isConnected := false
                 sockets := markHead SocketState.closed s.sockets
                 error := some exhaustedMsg
                 isLoading := false }) ∧
    (∀ (s : BState) (d : Nat) (rest : List Nat),
      s.pendingTimers = d :: rest →
      (timerFireB s).reconnectDelay = min (d * 2) 30000 ∧
      (d ≤ 30000 → d ≤ (timerFireB s).reconnectDelay)) ∧
    (∀ s : BState,
      (onopenB s).reconnectDelay = 1000 ∧
      (onopenB s).reconnectAttempts = 0) := by
  refine ⟨?_, ?_, ?_, ?_⟩
  · intro s h
    simp [oncloseB, h]
  · intro s h
    have hn : ¬s.reconnectAttempts < maxReconnectAttempts := Nat.not_lt.mpr h
    simp [oncloseB, hn, h]
  · intro s d rest ht
    have hd : (timerFireB s).reconnectDelay = min (d * 2) 30000 := by
      have := (connectB_preserves
        { s with reconnectAttempts := s.reconnectAttempts + 1
                 reconnectDelay := min (d * 2) 30000
                 pendingTimers := rest }).2.2
      simp [timerFireB, ht, this]
    refine ⟨hd, fun hle => ?_⟩
    rw [hd]
    omega
  · exact fun s => ⟨rfl, rfl⟩

/-- Witness for claim C4 at concrete states: the first closure from the
initial state schedules the base 1000 ms delay; a state with 5 used
attempts gets the terminal error; a fired 1000 ms timeout doubles the
delay to 2000 ms, which is not below 1000 ms; onopen resets the delay. -/
theorem c4_reconnect_policy_witness :
    (oncloseB binit false).pendingTimers = [1000] ∧
    (oncloseB { binit with reconnectAttempts := 5 } false).error =
      some exhaustedMsg ∧
    (timerFireB { binit with pendingTimers := [1000] }).reconnectDelay = 2000 ∧
    1000 ≤ (timerFireB { binit with pendingTimers := [1000] }).reconnectDelay ∧
    (onopenB { binit with reconnectDelay := 16000 }).reconnectDelay = 1000 := by
  refine ⟨?_, ?_, ?_, ?_, ?_⟩
  · rw [c4_reconnect_policy.1 binit (by decide)]
    rfl
  · rw [c4_reconnect_policy.2.1 { binit with reconnectAttempts := 5 } (by decide)]
  · rw [(c4_reconnect_policy.2.2.1 { binit with pendingTimers := [1000] }
      1000 [] rfl).1]
    decide
  · exact (c4_reconnect_policy.2.2.1 { binit with pendingTimers := [1000] }
      1000 [] rfl).2 (by decide)
  · exact (c4_reconnect_policy.2.2.2 { binit with reconnectDelay := 16000 }).1

/-- Counterexample to claim C4 as stated: after the initial connect and
five complete consecutive failure cycles the sixth non-clean closure
schedules no reconnect attempt at all; it sets the terminal error
instead. -/
theorem c4_counterexample :
    afterFiveFailures.reconnectAttempts = 5 ∧
    afterFiveFailures.pendingTimers = [] ∧
    (oncloseB afterFiveFailures false).pendingTimers = [] ∧
    (oncloseB afterFiveFailures false).error = some exhaustedMsg := by
  decide

/-- Claim C5, amended: in the shared client, reconnect() cancels any
pending reconnect timer, immediately starts a new connection attempt,
and keeps at most one socket open; the bounded variant reconnect()
resets the backoff state and immediately starts a new connection
attempt, but leaves any pending reconnect timer pending. -/
theorem c5_reconnect_cancels :
    (∀ s : V1State, s.isClient = true →
      (v1reconnect s).pendingTimer = false ∧
      (v1reconnect s).sockets.head? = some SocketState.connecting ∧
      (List.count SocketState.opened s.sockets ≤ 1 →
        List.count SocketState.opened (v1reconnect s).sockets ≤ 1)) ∧
    (∀ bs : BState,
      (reconnectB bs).pendingTimers = bs.pendingTimers ∧
      (reconnectB bs).reconnectAttempts = 0 ∧
      (reconnectB bs).reconnectDelay = 1000 ∧
      (bs.isClient = true →
        (reconnectB bs).sockets.head? = some SocketState.connecting)) := by
  constructor
  · intro s h
    have hv : v1reconnect s =
        { s with pendingTimer := false
                 isReconnecting := false
                 sockets := SocketState.connecting :: closeHead s.sockets } := by
      simp [v1reconnect, v1connect, h]
    refine ⟨by rw [hv], by rw [hv]; rfl, fun hc => ?_⟩
    rw [hv]
    have h1 := count_closeHead_le s.sockets
    simp only [List.count_cons]
    simp
    omega
  · intro bs
    refine ⟨?_, ?_, ?_, fun h => ?_⟩
    · exact (connectB_preserves _).1
    · exact (connectB_preserves _).2.1
    · exact (connectB_preserves _).2.2
    · simp [reconnectB, connectB, h]

/-- Witness for claim C5 at concrete states with a pending timer. -/
theorem c5_reconnect_cancels_witness :
    (v1reconnect v1PendingState).pendingTimer = false ∧
    (v1reconnect v1PendingState).sockets.head? = some SocketState.connecting ∧
    List.count SocketState.opened (v1reconnect v1PendingState).sockets ≤ 1 ∧
    (reconnectB bPendingState).reconnectAttempts = 0 ∧
    (reconnectB bPendingState).sockets.head? = some SocketState.connecting :=
  ⟨(c5_reconnect_cancels.1 v1PendingState rfl).1,
   (c5_reconnect_cancels.1 v1PendingState rfl).2.1,
   (c5_reconnect_cancels.1 v1PendingState rfl).2.2 (by decide),
   (c5_reconnect_cancels.2 bPendingState).2.1,
   (c5_reconnect_cancels.2 bPendingState).2.2.2 rfl⟩

/-- Counterexample to claim C5 as stated: the bounded variant
reconnect(), called while a 3000 ms reconnect timer is pending, leaves
that timer pending rather than cancelling it. -/
theorem c5_counterexample :
    bPendingState.pendingTimers = [3000] ∧
    (reconnectB bPendingState).pendingTimers = [3000] := by
  decide

/-- Claim C6, amended: connect() of the shared client does nothing only
when not on the client or while the isReconnecting flag is set; with the
flag clear it unconditionally creates a new socket, even when one is
already open; the bounded variant connect() closes an open socket and
creates a new one. -/
theorem c6_connect_guard :
    (∀ s : V1State, s.isClient = false ∨ s.isReconnecting = true →
      v1connect s = s) ∧
    (∀ s : V1State, s.isClient = true → s.isReconnecting = false →
      v1connect s =
        { s with sockets := SocketState.connecting :: s.sockets }) ∧
    (∀ bs : BState, bs.isClient = true →
      connectB bs =
        { bs with isLoading := true
                  error := none
                  sockets := SocketState.connecting ::
                    closeHeadIfOpen bs.sockets }) := by
  refine ⟨?_, ?_, ?_⟩
  · rintro s (h | h) <;> simp [v1connect, h]
  · intro s h1 h2
    simp [v1connect, h1, h2]
  · intro bs h
    simp [connectB, h]

/-- Witness for claim C6 at concrete states. -/
theorem c6_connect_guard_witness :
    v1connect v1init = v1init ∧
    v1connect { v1init with isClient := true } =
      { v1init with isClient := true
                    sockets := [SocketState.connecting] } ∧
    connectB binit =
      { binit with isLoading := true
                   error := none
                   sockets := [SocketState.connecting] } :=
  ⟨c6_connect_guard.1 v1init (Or.inl rfl),
   c6_connect_guard.2.1 { v1init with isClient := true } rfl rfl,
   c6_connect_guard.2.2 binit rfl⟩

/-- Counterexample to claim C6 as stated: calling connect() of the
shared client while a connection is already open is not a no-op; it
creates a second socket while the first is still open. -/
theorem c6_counterexample :
    v1OpenState.sockets = [SocketState.opened] ∧
    v1connect v1OpenState ≠ v1OpenState ∧
    (v1connect v1OpenState).sockets =
      [SocketState.connecting, SocketState.opened] := by
  decide

/-- Claim C7: every failing REST trading call, whether a network error
or a non-2xx response, produces a structured failure result with
success false, the fixed failure message and a populated error field;
openPosition and closePosition are total functions of the fetch outcome,
so no exception reaches the caller; on a non-2xx response whose body
carries a non-empty message, the error field is exactly that
server-supplied message. -/
theorem c7_rest_failures_structured :
    (∀ f : FetchOutcome, isFetchFailure f = true →
      (openPosition f).success = false ∧
      (openPosition f).error.isSome = true ∧
      (openPosition f).message = "Failed to open position" ∧
      (closePosition f).success = false ∧
      (closePosition f).error.isSome = true ∧
      (closePosition f).message = "Failed to close position") ∧
    (∀ (r : HttpResponse) (b : RespBody) (em : String),
      r.ok = false → r.body = some b → b.message = some em → em ≠ "" →
      (openPosition (FetchOutcome.response r)).error = some em ∧
      (closePosition (FetchOutcome.response r)).error = some em) := by
  constructor
  · intro f hf
    cases f with
    | netError msg =>
      simp [openPosition, closePosition, executeTradeAPI, closeTradeAPI]
    | response r =>
      have hok : r.ok = false := by
        simpa [isFetchFailure] using hf
      cases hb : r.body <;>
        simp [openPosition, closePosition, executeTradeAPI, closeTradeAPI,
          hok, hb]
  · intro r b em h1 h2 h3 h4
    constructor <;>
      simp [openPosition, closePosition, executeTradeAPI, closeTradeAPI,
        h1, h2, jsStringOr, h3, h4]

/-- Witness for claim C7 at a network error and at the concrete failing
response. -/
theorem c7_rest_failures_structured_witness :
    (openPosition (FetchOutcome.netError "fetch failed")).success = false ∧
    (closePosition (FetchOutcome.netError "fetch failed")).success = false ∧
    (openPosition (FetchOutcome.response failResp)).error =
      some "insufficient margin" ∧
    (closePosition (FetchOutcome.response failResp)).error =
      some "insufficient margin" :=
  ⟨(c7_rest_failures_structured.1 (FetchOutcome.netError "fetch failed")
      (by decide)).1,
   (c7_rest_failures_structured.1 (FetchOutcome.netError "fetch failed")
      (by decide)).2.2.2.1,
   (c7_rest_failures_structured.2 failResp
      { message := some "insufficient margin", error := none,
        position := none } "insufficient margin" rfl rfl rfl
      (by decide)).1,
   (c7_rest_failures_structured.2 failResp
      { message := some "insufficient margin", error := none,
        position := none } "insufficient margin" rfl rfl rfl
      (by decide)).2⟩

/-- Claim C8: the bounded variant installs its application heartbeat
with a 30000 ms period; a tick sends exactly one ping when the current
socket is open and nothing otherwise; and an inbound pong message leaves
the whole exposed state unchanged. -/
theorem c8_heartbeat_and_pong :
    pingIntervalMs = 30000 ∧
    (∀ bs : BState, bs.sockets.head? = some SocketState.opened →
      pingTick bs = [ClientMsg.ping]) ∧
    (∀ bs : BState, bs.sockets.head? ≠ some SocketState.opened →
      pingTick bs = []) ∧
    (∀ (bs : BState) (m : WSMessage), m.type = "pong" →
      onmessageB bs (Frame.msg m) = bs) := by
  refine ⟨rfl, ?_, ?_, ?_⟩
  · intro bs h
    simp [pingTick, h]
  · intro bs h
    simp [pingTick, h]
  · intro bs m h
    simp [onmessageB, h]

/-- Witness for claim C8 at concrete states and a concrete pong. -/
theorem c8_heartbeat_and_pong_witness :
    pingTick bOpenState = [ClientMsg.ping] ∧
    pingTick binit = [] ∧
    onmessageB bOpenState (Frame.msg ⟨"pong", none, none, "t"⟩) = bOpenState :=
  ⟨c8_heartbeat_and_pong.2.1 bOpenState rfl,
   c8_heartbeat_and_pong.2.2.1 binit (by decide),
   c8_heartbeat_and_pong.2.2.2 bOpenState ⟨"pong", none, none, "t"⟩ rfl⟩

/-- Witness for claim C10 at a concrete error message. -/
theorem c10_error_message_sets_only_error_witness :
    v1onmessage v1init (Frame.msg ⟨"error", none, some "backend overload", "t"⟩) =
      { v1init with error := some "backend overload" } :=
  c10_error_message_sets_only_error v1init
    ⟨"error", none, some "backend overload", "t"⟩ rfl
